import Mathlib

/-!
Verification of the StandX market-maker decision engine.

Shallow embedding of `src/core/maker.py` and `src/config.py`. Python floats
(prices, quantities, basis-point ratios) are modelled as exact rationals `ℚ`;
Python exceptions as `Except String`; the exchange gateway and the notification
transport as explicit oracles passed into each function. The in-memory trading
state lives in `core/state.py`, which is not among the sources; its operations
are modelled from the spec and marked as such.
-/

namespace StandXMM

/-- A resting order tracked locally, one per side at most.
Fields follow the `OpenOrder(cl_ord_id=…, side=…, price=…, qty=…)` constructor
calls in `src/core/maker.py`. -/
structure OpenOrder where
  cl_ord_id : String
  side : String
  price : ℚ
  qty : ℚ
deriving Repr, DecidableEq

/-- Modelled from the spec: the in-memory trading state (`core/state.py` is not
among the sources). `last_price` is the most recent observed price (none before
any observation), `position` the signed quantity, one optional resting order per
side, and `price_history` the rolling window of retained price samples in
time-ascending order (the last element is the most recent sample). -/
structure State where
  last_price : Option ℚ
  position : ℚ
  buy_order : Option OpenOrder
  sell_order : Option OpenOrder
  price_history : List ℚ
deriving Repr, DecidableEq

/-- Modelled from the spec: `has_order(side)` is a membership test on the
per-side slot. -/
def State.has_order (st : State) (side : String) : Bool :=
  if side = "buy" then st.buy_order.isSome
  else if side = "sell" then st.sell_order.isSome
  else false

/-- Modelled from the spec: `set_order(side, order_or_none)` overwrites the
resting-order slot for a side; `none` clears it. -/
def State.set_order (st : State) (side : String) (o : Option OpenOrder) : State :=
  if side = "buy" then { st with buy_order := o }
  else if side = "sell" then { st with sell_order := o }
  else st

/-- Modelled from the spec: `distance_bps = |order.price − last_price| /
last_price × 10000`. -/
def distance_bps (order_price lp : ℚ) : ℚ :=
  |order_price - lp| / lp * 10000

/-- Modelled from the spec: `orders_to_cancel(cancel_distance_bps,
rebalance_distance_bps, last_price)` — each currently resting order qualifies
when its distance in bps from the last price is strictly below
`cancel_distance_bps` or strictly above `rebalance_distance_bps`; the state is
not mutated. -/
def State.get_orders_to_cancel (st : State) (cancel_bps rebalance_bps : ℚ) :
    List OpenOrder :=
  match st.last_price with
  | none => []
  | some lp =>
      ([st.buy_order, st.sell_order].filterMap id).filter fun o =>
        decide (distance_bps o.price lp < cancel_bps) ||
        decide (distance_bps o.price lp > rebalance_bps)

/-- Modelled from the spec: `volatility_bps()` returns 0 with fewer than two
retained samples, otherwise `(max − min) / reference × 10000` where the
reference is the most recent sample's price. -/
def State.get_volatility_bps (st : State) : ℚ :=
  match st.price_history with
  | [] => 0
  | [_] => 0
  | p :: ps =>
      let hi := ps.foldl max p
      let lo := ps.foldl min p
      let ref := ps.getLastD p
      (hi - lo) / ref * 10000

/-- The configuration dataclass of `src/config.py` (`WalletConfig`). -/
structure WalletConfig where
  chain : String
  private_key : Option String
  api_token : Option String
  api_secret : Option String
deriving Repr, DecidableEq

/-- The configuration dataclass of `src/config.py` (`Config`). Integer fields
are `Int` as in the Python source; the float fields are rationals. -/
structure Config where
  wallet : WalletConfig
  symbol : String
  order_distance_bps : Int
  cancel_distance_bps : Int
  rebalance_distance_bps : Int
  order_size_btc : ℚ
  max_position_btc : ℚ
  volatility_window_sec : Int
  volatility_threshold_bps : Int
deriving Repr, DecidableEq

/-- The gateway's reply to `new_order`: a dict with optional `code` and
`message` entries (`response.get("code")` in the source yields `none` when the
key is absent). -/
structure NewOrderResponse where
  code : Option Int
  message : Option String
deriving Repr, DecidableEq

/-- The exchange gateway consumed by one tick: `cancel_order(cl_ord_id)` either
returns or raises, and `new_order(symbol, side, qty, price, cl_ord_id)` either
returns a response dict or raises a transport error. Quantity and price are
carried as the rational values rendered by the `qty_str` / `price_str`
formatting in the source. -/
structure Gateway where
  cancel_order : String → Except String Unit
  new_order : String → String → ℚ → ℚ → String → Except String NewOrderResponse

/-- An alert emitted through `send_notify`: (title, message, priority). -/
abbrev Alert : Type := String × String × String

/-- Does the second character list begin with the first? Structural helper for
`starts_with`. -/
def begins_with : List Char → List Char → Bool
  | [], _ => true
  | _ :: _, [] => false
  | c :: cs, d :: ds => c = d && begins_with cs ds

/-- Python's `str.startswith(pre)`, on the character sequences of the two
strings. -/
def starts_with (s pre : String) : Bool :=
  begins_with pre.data s.data

/-- Tick size chosen in `Maker._place_order`: `0.01` for symbols starting with
`"BTC"`, `0.1` for every other symbol. -/
def tick_size (symbol : String) : ℚ :=
  if starts_with symbol "BTC" then 1 / 100 else 1 / 10

/-- Price decimals chosen in `Maker._place_order`: 2 for symbols starting with
`"BTC"`, 1 otherwise. -/
def price_decimals (symbol : String) : Nat :=
  if starts_with symbol "BTC" then 2 else 1

/-- Price alignment in `Maker._place_order`: floor to the tick for a buy, ceil
to the tick for any other side ("sell"). -/
def align_price (symbol side : String) (price : ℚ) : ℚ :=
  let ts := tick_size symbol
  if side = "buy" then ⌊price / ts⌋ * ts else ⌈price / ts⌉ * ts

/-- Result of `Maker._place_order` / `Maker._place_missing_orders`: the updated
state, the list of placement attempts actually submitted to the gateway as
(side, aligned price), and the alerts emitted. -/
structure PlaceResult where
  state : State
  submissions : List (String × ℚ)
  alerts : List Alert
deriving DecidableEq

/-- `Maker._place_order(side, price)`: align the target price to the tick
(floor for buy, ceil for sell), submit it, and on a `code == 0` acknowledgment
record the order locally — note the source records the *unaligned* `price`
argument in the local `OpenOrder`. Any non-zero (or missing) code, or a raised
transport error, leaves the state unchanged and emits a high-priority alert;
nothing propagates to the caller. -/
def Maker.place_order (cfg : Config) (gw : Gateway) (st : State)
    (side : String) (price : ℚ) (cl_ord_id : String) : PlaceResult :=
  let aligned_price := align_price cfg.symbol side price
  match gw.new_order cfg.symbol side cfg.order_size_btc aligned_price cl_ord_id with
  | Except.ok response =>
      if response.code = some 0 then
        { state := st.set_order side (some
            { cl_ord_id := cl_ord_id, side := side, price := price,
              qty := cfg.order_size_btc }),
          submissions := [(side, aligned_price)],
          alerts := [] }
      else
        let error_msg := (response.message).getD "response"
        { state := st,
          submissions := [(side, aligned_price)],
          alerts := [("StandX 下单失败",
            cfg.symbol ++ " " ++ side ++ " 下单失败: " ++ error_msg, "high")] }
  | Except.error e =>
      { state := st,
        submissions := [(side, aligned_price)],
        alerts := [("StandX 下单异常",
          cfg.symbol ++ " " ++ side ++ " 下单异常: " ++ e, "high")] }

/-- `Maker._place_missing_orders`: compute the buy/sell target prices from the
last price and `order_distance_bps`, then place on each side whose slot is
empty (the sell check reads the state as updated by the buy placement).
`idGen` models the `uuid`-based fresh client-id generation, one id per side. -/
def Maker.place_missing_orders (cfg : Config) (gw : Gateway)
    (idGen : String → String) (st : State) : PlaceResult :=
  match st.last_price with
  | none => { state := st, submissions := [], alerts := [] }
  | some lp =>
      let buy_price := lp * (1 - (cfg.order_distance_bps : ℚ) / 10000)
      let sell_price := lp * (1 + (cfg.order_distance_bps : ℚ) / 10000)
      let r1 :=
        if st.has_order "buy" then { state := st, submissions := [], alerts := [] }
        else Maker.place_order cfg gw st "buy" buy_price (idGen "buy")
      let r2 :=
        if r1.state.has_order "sell" then
          { state := r1.state, submissions := [], alerts := [] }
        else Maker.place_order cfg gw r1.state "sell" sell_price (idGen "sell")
      { state := r2.state,
        submissions := r1.submissions ++ r2.submissions,
        alerts := r1.alerts ++ r2.alerts }

/-- One iteration of the cancellation loop in `Maker._tick`: attempt to cancel
one order; on success clear that side's slot, on a raised error leave the state
untouched and append a high-priority alert. -/
def Maker.cancel_step (cfg : Config) (gw : Gateway)
    (acc : State × List Alert) (o : OpenOrder) : State × List Alert :=
  match gw.cancel_order o.cl_ord_id with
  | Except.ok _ => (acc.1.set_order o.side none, acc.2)
  | Except.error e =>
      (acc.1, acc.2 ++ [("StandX 撤单失败",
        cfg.symbol ++ " 撤单失败: " ++ e, "high")])

/-- Result of one `Maker._tick`: the updated state, the client ids for which a
cancel was attempted, the placement submissions and the alerts. -/
structure TickResult where
  state : State
  cancel_attempts : List String
  submissions : List (String × ℚ)
  alerts : List Alert
deriving DecidableEq

/-- `Maker._tick`: (1) no-op without a price; (2) no-op once `|position| ≥
max_position_btc`; (3) if any resting order qualifies for cancellation, attempt
each cancel and end the tick without placing; (4) no-op when volatility
strictly exceeds the threshold; (5) otherwise place missing orders. -/
def Maker.tick (cfg : Config) (gw : Gateway) (idGen : String → String)
    (st : State) : TickResult :=
  match st.last_price with
  | none => { state := st, cancel_attempts := [], submissions := [], alerts := [] }
  | some _ =>
      if |st.position| ≥ cfg.max_position_btc then
        { state := st, cancel_attempts := [], submissions := [], alerts := [] }
      else
        let orders_to_cancel := st.get_orders_to_cancel
          (cfg.cancel_distance_bps : ℚ) (cfg.rebalance_distance_bps : ℚ)
        if orders_to_cancel.isEmpty then
          let volatility := st.get_volatility_bps
          if volatility > (cfg.volatility_threshold_bps : ℚ) then
            { state := st, cancel_attempts := [], submissions := [], alerts := [] }
          else
            let r := Maker.place_missing_orders cfg gw idGen st
            { state := r.state, cancel_attempts := [],
              submissions := r.submissions, alerts := r.alerts }
        else
          let acc := orders_to_cancel.foldl (Maker.cancel_step cfg gw) (st, [])
          { state := acc.1,
            cancel_attempts := orders_to_cancel.map (fun o => o.cl_ord_id),
            submissions := [],
            alerts := acc.2 }

/-- The environment read by `send_notify`: `os.environ.get("NOTIFY_URL", "")`
and `os.environ.get("NOTIFY_API_KEY", "")` — an unset variable yields `""`. -/
structure NotifyEnv where
  notify_url : String
  notify_api_key : String

/-- Outcome of the `requests.post` transport call: a returned response (with
its status code — never inspected by the caller) or a raised exception. -/
inductive PostOutcome where
  | resp (status : Int)
  | exn (e : String)

/-- `send_notify(title, message, priority)` from `core/maker.py`: returns at
once when `NOTIFY_URL` is unset (empty); otherwise posts the JSON payload with
the optional `X-API-Key` header and swallows any raised exception with a bare
`except: pass`. `post` is the transport's behavior as a function of headers and
payload. The model returns `Except.ok ()` exactly when the Python function
returns normally; the function reads no trading state and writes none. -/
def send_notify (env : NotifyEnv)
    (post : List (String × String) → List (String × String) → PostOutcome)
    (title message priority : String) : Except String Unit :=
  if env.notify_url = "" then Except.ok ()
  else
    let headers :=
      if env.notify_api_key = "" then ([] : List (String × String))
      else [("X-API-Key", env.notify_api_key)]
    match post headers
        [("title", title), ("message", message),
         ("channel", "alert"), ("priority", priority)] with
    | PostOutcome.resp _ => Except.ok ()
    | PostOutcome.exn _ => Except.ok ()

/-- The wallet section of the YAML mapping fed to `Config.from_dict`; `some`
marks a present key (`src/config.py` tests key presence for the credential
check and reads values with `.get`). -/
structure WalletDict where
  chain : Option String
  private_key : Option String
  api_token : Option String
  api_secret : Option String
deriving Repr, DecidableEq

/-- The top-level YAML mapping fed to `Config.from_dict`; `some` marks a
present key. A missing required key raises (Python `KeyError`), modelled as
`Except.error`. -/
structure ConfigDict where
  wallet : Option WalletDict
  symbol : Option String
  order_distance_bps : Option Int
  cancel_distance_bps : Option Int
  rebalance_distance_bps : Option Int
  order_size_btc : Option ℚ
  max_position_btc : Option ℚ
  volatility_window_sec : Option Int
  volatility_threshold_bps : Option Int
deriving Repr, DecidableEq

/-- Fetch a required key, failing like Python's `data[key]` (`KeyError`). -/
def dict_require (key : String) (v : Option α) : Except String α :=
  match v with
  | some a => Except.ok a
  | none => Except.error ("KeyError: " ++ key)

/-- `Config.from_dict` from `src/config.py`: the wallet section is required;
the credential check requires `private_key` or `api_token` to be *present*;
`chain` defaults to `"bsc"` and `rebalance_distance_bps` to `20`; every other
listed field is required and raises when absent. -/
def Config.from_dict (data : ConfigDict) : Except String Config := do
  let wallet_data ← dict_require "wallet" data.wallet
  if wallet_data.api_token.isNone && wallet_data.private_key.isNone then
    Except.error "Either private_key or api_token must be provided in wallet config"
  else do
    let symbol ← dict_require "symbol" data.symbol
    let order_distance_bps ← dict_require "order_distance_bps" data.order_distance_bps
    let cancel_distance_bps ← dict_require "cancel_distance_bps" data.cancel_distance_bps
    let order_size_btc ← dict_require "order_size_btc" data.order_size_btc
    let max_position_btc ← dict_require "max_position_btc" data.max_position_btc
    let volatility_window_sec ← dict_require "volatility_window_sec" data.volatility_window_sec
    let volatility_threshold_bps ← dict_require "volatility_threshold_bps" data.volatility_threshold_bps
    Except.ok
      { wallet :=
          { chain := wallet_data.chain.getD "bsc",
            private_key := wallet_data.private_key,
            api_token := wallet_data.api_token,
            api_secret := wallet_data.api_secret },
        symbol := symbol,
        order_distance_bps := order_distance_bps,
        cancel_distance_bps := cancel_distance_bps,
        rebalance_distance_bps := data.rebalance_distance_bps.getD 20,
        order_size_btc := order_size_btc,
        max_position_btc := max_position_btc,
        volatility_window_sec := volatility_window_sec,
        volatility_threshold_bps := volatility_threshold_bps }

/-! ### Concrete fixtures used to exercise the definitions -/

/-- A concrete configuration with a BTC symbol. -/
def cfgBTC : Config :=
  { wallet := { chain := "bsc", private_key := some "pk", api_token := none,
                api_secret := none },
    symbol := "BTC-USD-PERP",
    order_distance_bps := 10,
    cancel_distance_bps := 10,
    rebalance_distance_bps := 20,
    order_size_btc := 1 / 1000,
    max_position_btc := 1 / 2,
    volatility_window_sec := 60,
    volatility_threshold_bps := 0 }

/-- A gateway on which every call succeeds and every placement is accepted. -/
def gwOk : Gateway :=
  { cancel_order := fun _ => Except.ok (),
    new_order := fun _ _ _ _ _ => Except.ok { code := some 0, message := none } }

/-- A gateway on which every call raises a transport error. -/
def gwDown : Gateway :=
  { cancel_order := fun _ => Except.error "ConnectionError",
    new_order := fun _ _ _ _ _ => Except.error "ConnectionError" }

/-- A gateway that rejects every placement with a non-zero code. -/
def gwReject : Gateway :=
  { cancel_order := fun _ => Except.ok (),
    new_order := fun _ _ _ _ _ =>
      Except.ok { code := some 1, message := some "insufficient margin" } }

/-- A deterministic stand-in for the uuid-based client-id generator. -/
def idGen0 : String → String := fun side => "mm-" ++ side ++ "-00000000"

/-- A state with no resting orders, flat position and last price 50000. -/
def stFlat : State :=
  { last_price := some 50000, position := 0, buy_order := none,
    sell_order := none, price_history := [50000] }

/-- A state at the position ceiling of `cfgBTC`. -/
def stAtLimit : State :=
  { stFlat with position := 1 / 2 }

/-- A concrete configuration with a non-BTC symbol. -/
def cfgETH : Config :=
  { cfgBTC with symbol := "ETH-USD-PERP" }

/-- A resting buy order five dollars below the last price of `stFlat` —
1 bps off, inside the cancel band of `cfgBTC`. -/
def buyClose : OpenOrder :=
  { cl_ord_id := "mm-buy-11111111", side := "buy", price := 49995,
    qty := 1 / 1000 }

/-- `stFlat` with the too-close resting buy order. -/
def stWithCloseBuy : State :=
  { stFlat with buy_order := some buyClose }

/-- A state whose last price (50000.03) yields off-tick target prices. -/
def stOffTick : State :=
  { last_price := some (5000003 / 100), position := 0, buy_order := none,
    sell_order := none, price_history := [5000003 / 100] }

/-- A wallet mapping carrying only a private key. -/
def wFull : WalletDict :=
  { chain := some "bsc", private_key := some "pk", api_token := none,
    api_secret := none }

/-! ### Helper lemmas -/

/-- `_place_order` always submits exactly one order, at the aligned price,
whatever the gateway then does. -/
theorem place_order_submissions (cfg : Config) (gw : Gateway) (st : State)
    (side : String) (price : ℚ) (cl_ord_id : String) :
    (Maker.place_order cfg gw st side price cl_ord_id).submissions =
      [(side, align_price cfg.symbol side price)] := by
  simp only [Maker.place_order]
  split <;> first | rfl | (split <;> rfl)

/-- A buy placement never touches the sell slot. -/
theorem place_order_buy_keeps_sell (cfg : Config) (gw : Gateway) (st : State)
    (price : ℚ) (cl_ord_id : String) :
    (Maker.place_order cfg gw st "buy" price cl_ord_id).state.sell_order =
      st.sell_order := by
  simp only [Maker.place_order]
  split
  · split <;> simp [State.set_order]
  · rfl

/-- Binding a successful `Except` applies the continuation. -/
theorem except_ok_bind (a : α) (f : α → Except ε β) :
    (Except.ok a >>= f) = f a := rfl

/-- Binding a failed `Except` keeps the failure. -/
theorem except_error_bind (e : ε) (f : α → Except ε β) :
    ((Except.error e : Except ε α) >>= f) = Except.error e := rfl

/-- With a last price and an empty buy slot, `_place_missing_orders` submits a
buy at the aligned target price first; the sell side is handled afterwards on
the updated state. -/
theorem place_missing_orders_submissions (cfg : Config) (gw : Gateway)
    (idGen : String → String) (st : State) (p : ℚ)
    (hp : st.last_price = some p) (hb : st.buy_order = none)
    (hs : st.sell_order = none) :
    (Maker.place_missing_orders cfg gw idGen st).submissions =
      [("buy", align_price cfg.symbol "buy"
          (p * (1 - (cfg.order_distance_bps : ℚ) / 10000))),
       ("sell", align_price cfg.symbol "sell"
          (p * (1 + (cfg.order_distance_bps : ℚ) / 10000)))] := by
  have h1 : st.has_order "buy" = false := by simp [State.has_order, hb]
  have h2 : ∀ q cl, (Maker.place_order cfg gw st "buy" q cl).state.has_order
      "sell" = false := by
    intro q cl
    simp [State.has_order, place_order_buy_keeps_sell, hs]
  simp [Maker.place_missing_orders, hp, h1, h2, place_order_submissions]

/-- With a last price and an empty buy slot, `_place_missing_orders` always
submits at least one order. -/
theorem place_missing_orders_submits (cfg : Config) (gw : Gateway)
    (idGen : String → String) (st : State) (p : ℚ)
    (hp : st.last_price = some p) (hb : st.buy_order = none) :
    (Maker.place_missing_orders cfg gw idGen st).submissions ≠ [] := by
  have h1 : st.has_order "buy" = false := by simp [State.has_order, hb]
  simp [Maker.place_missing_orders, hp, h1, place_order_submissions]

/-! ### Claim theorems -/

/-- C1: once a last price exists and `|position| ≥ max_position_btc`, the tick
returns right after the position check — no cancel attempt, no submission, no
alert and no state mutation. -/
theorem tick_halts_at_position_limit (cfg : Config) (gw : Gateway)
    (idGen : String → String) (st : State) (p : ℚ)
    (hp : st.last_price = some p)
    (hpos : |st.position| ≥ cfg.max_position_btc) :
    Maker.tick cfg gw idGen st =
      { state := st, cancel_attempts := [], submissions := [], alerts := [] } := by
  unfold Maker.tick
  rw [hp]
  simp [hpos]

/-- Witness for C1: the position-ceiling scenario (position 0.5, ceiling 0.5)
ends the tick with nothing done. -/
theorem tick_halts_at_position_limit_witness :
    Maker.tick cfgBTC gwOk idGen0 stAtLimit =
      { state := stAtLimit, cancel_attempts := [], submissions := [],
        alerts := [] } :=
  tick_halts_at_position_limit cfgBTC gwOk idGen0 stAtLimit 50000
    (by rfl)
    (by
      show cfgBTC.max_position_btc ≤ |stAtLimit.position|
      simp only [stAtLimit, stFlat, cfgBTC]
      exact le_abs_self _)

/-- C8: `send_notify` returns normally for every environment, every transport
behavior and every argument; it touches no trading state. -/
theorem send_notify_never_raises (env : NotifyEnv)
    (post : List (String × String) → List (String × String) → PostOutcome)
    (title message priority : String) :
    send_notify env post title message priority = Except.ok () := by
  simp only [send_notify]
  split
  · rfl
  · split <;> rfl

/-- C2: when the cancel evaluation returns a non-empty list, the tick attempts
a cancellation for every listed order, in list order, and ends without any
placement, whatever the individual cancel outcomes. -/
theorem tick_cancels_then_stops (cfg : Config) (gw : Gateway)
    (idGen : String → String) (st : State) (p : ℚ)
    (hp : st.last_price = some p)
    (hpos : |st.position| < cfg.max_position_btc)
    (hc : st.get_orders_to_cancel (cfg.cancel_distance_bps : ℚ)
        (cfg.rebalance_distance_bps : ℚ) ≠ []) :
    (Maker.tick cfg gw idGen st).cancel_attempts =
      (st.get_orders_to_cancel (cfg.cancel_distance_bps : ℚ)
        (cfg.rebalance_distance_bps : ℚ)).map (fun o => o.cl_ord_id) ∧
    (Maker.tick cfg gw idGen st).submissions = [] := by
  have h1 : ¬ (|st.position| ≥ cfg.max_position_btc) := not_le.mpr hpos
  have h2 : (st.get_orders_to_cancel (cfg.cancel_distance_bps : ℚ)
      (cfg.rebalance_distance_bps : ℚ)).isEmpty = false := by
    cases hl : st.get_orders_to_cancel (cfg.cancel_distance_bps : ℚ)
        (cfg.rebalance_distance_bps : ℚ) with
    | nil => exact absurd hl hc
    | cons a l => rfl
  unfold Maker.tick
  rw [hp]
  simp [h1, h2]

/-- Witness for C2: a buy resting 1 bps from the market is inside the cancel
band; on a gateway whose cancels raise, the tick still attempts the cancel and
places nothing. -/
theorem tick_cancels_then_stops_witness :
    (Maker.tick cfgBTC gwDown idGen0 stWithCloseBuy).cancel_attempts =
      (stWithCloseBuy.get_orders_to_cancel (cfgBTC.cancel_distance_bps : ℚ)
        (cfgBTC.rebalance_distance_bps : ℚ)).map (fun o => o.cl_ord_id) ∧
    (Maker.tick cfgBTC gwDown idGen0 stWithCloseBuy).submissions = [] :=
  tick_cancels_then_stops cfgBTC gwDown idGen0 stWithCloseBuy 50000 rfl
    (by norm_num [stWithCloseBuy, stFlat, cfgBTC])
    (by norm_num [State.get_orders_to_cancel, stWithCloseBuy, stFlat, buyClose,
      distance_bps, cfgBTC])

/-- C3: a placement records a RestingOrder in the side's slot exactly on a
`code == 0` acknowledgment; a non-zero code or a raised transport error leaves
the state unchanged and emits one high-priority alert. The failure never
escapes `_place_order` (the function is total). -/
theorem place_order_records_only_on_ack (cfg : Config) (gw : Gateway)
    (st : State) (side : String) (price : ℚ) (cl_ord_id : String) :
    (∀ response,
        gw.new_order cfg.symbol side cfg.order_size_btc
            (align_price cfg.symbol side price) cl_ord_id =
          Except.ok response →
        (response.code = some 0 →
          (Maker.place_order cfg gw st side price cl_ord_id).state =
            st.set_order side (some
              { cl_ord_id := cl_ord_id, side := side,
                price := price, qty := cfg.order_size_btc }) ∧
          (Maker.place_order cfg gw st side price cl_ord_id).alerts = []) ∧
        (response.code ≠ some 0 →
          (Maker.place_order cfg gw st side price cl_ord_id).state = st ∧
          ∃ msg, (Maker.place_order cfg gw st side price cl_ord_id).alerts =
            [("StandX 下单失败", msg, "high")])) ∧
    (∀ e,
        gw.new_order cfg.symbol side cfg.order_size_btc
            (align_price cfg.symbol side price) cl_ord_id = Except.error e →
        (Maker.place_order cfg gw st side price cl_ord_id).state = st ∧
        ∃ msg, (Maker.place_order cfg gw st side price cl_ord_id).alerts =
          [("StandX 下单异常", msg, "high")]) := by
  constructor
  · intro response h
    constructor
    · intro hcode
      simp [Maker.place_order, h, hcode]
    · intro hcode
      simp [Maker.place_order, h, hcode]
  · intro e h
    simp [Maker.place_order, h]

/-- Witness for C3: an accepted placement records the order locally with no
alert; a raised placement leaves the state unchanged and emits one
high-priority alert. -/
theorem place_order_records_only_on_ack_witness :
    ((Maker.place_order cfgBTC gwOk stFlat "buy" 100 "x").state =
        stFlat.set_order "buy" (some
          { cl_ord_id := "x", side := "buy", price := 100,
            qty := cfgBTC.order_size_btc }) ∧
      (Maker.place_order cfgBTC gwOk stFlat "buy" 100 "x").alerts = []) ∧
    ((Maker.place_order cfgBTC gwDown stFlat "buy" 100 "x").state = stFlat ∧
      ∃ msg, (Maker.place_order cfgBTC gwDown stFlat "buy" 100 "x").alerts =
        [("StandX 下单异常", msg, "high")]) :=
  ⟨((place_order_records_only_on_ack cfgBTC gwOk stFlat "buy" 100 "x").1
      { code := some 0, message := none } rfl).1 rfl,
   (place_order_records_only_on_ack cfgBTC gwDown stFlat "buy" 100 "x").2
      "ConnectionError" rfl⟩

/-- C4: one iteration of the cancellation loop clears the side's slot exactly
on success; a raised error leaves the state as it was and appends one
high-priority alert; and the fold proceeds to the remaining orders either
way. -/
theorem cancel_step_clears_slot_on_success (cfg : Config) (gw : Gateway)
    (st : State) (alerts : List Alert) (o : OpenOrder) :
    (gw.cancel_order o.cl_ord_id = Except.ok () →
        Maker.cancel_step cfg gw (st, alerts) o =
          (st.set_order o.side none, alerts)) ∧
    (∀ e, gw.cancel_order o.cl_ord_id = Except.error e →
        Maker.cancel_step cfg gw (st, alerts) o =
          (st, alerts ++ [("StandX 撤单失败",
            cfg.symbol ++ " 撤单失败: " ++ e, "high")])) ∧
    (∀ rest acc, List.foldl (Maker.cancel_step cfg gw) acc (o :: rest) =
        List.foldl (Maker.cancel_step cfg gw)
          (Maker.cancel_step cfg gw acc o) rest) := by
  refine ⟨?_, ?_, fun rest acc => rfl⟩
  · intro h
    simp [Maker.cancel_step, h]
  · intro e h
    simp [Maker.cancel_step, h]

/-- Witness for C4: a successful cancel clears the buy slot; a raising cancel
leaves the state intact and emits the high-priority alert. -/
theorem cancel_step_clears_slot_on_success_witness :
    Maker.cancel_step cfgBTC gwOk (stWithCloseBuy, []) buyClose =
      (stWithCloseBuy.set_order "buy" none, []) ∧
    Maker.cancel_step cfgBTC gwDown (stWithCloseBuy, []) buyClose =
      (stWithCloseBuy, [("StandX 撤单失败",
        cfgBTC.symbol ++ " 撤单失败: " ++ "ConnectionError", "high")]) := by
  constructor
  · have h := (cancel_step_clears_slot_on_success cfgBTC gwOk stWithCloseBuy
      [] buyClose).1 rfl
    simpa [buyClose] using h
  · have h := (cancel_step_clears_slot_on_success cfgBTC gwDown stWithCloseBuy
      [] buyClose).2.1 "ConnectionError" rfl
    simpa using h

/-- C5 counterexample: reachable from last price 50000.03, the buy target
49950.02997 is accepted by the gateway; the exchange is sent the floor-aligned
49950.02, but the locally recorded RestingOrder stores the unaligned
49950.02997 — the stored price differs from the submitted one, refuting the
claim as stated. -/
theorem stored_price_differs_from_submitted :
    (Maker.place_order cfgBTC gwOk stFlat "buy" (4995002997 / 100000)
        "mm-buy-deadbeef").state.buy_order =
      some
        { cl_ord_id := "mm-buy-deadbeef", side := "buy",
          price := 4995002997 / 100000, qty := 1 / 1000 } ∧
    (Maker.place_order cfgBTC gwOk stFlat "buy" (4995002997 / 100000)
        "mm-buy-deadbeef").submissions = [("buy", 4995002 / 100)] ∧
    (4995002997 / 100000 : ℚ) ≠ (4995002 / 100 : ℚ) := by
  refine ⟨?_, ?_, by norm_num⟩
  · simp [Maker.place_order, gwOk, State.set_order, stFlat, cfgBTC]
  · rw [place_order_submissions]
    have hB : starts_with "BTC-USD-PERP" "BTC" = true := by decide
    norm_num [align_price, tick_size, hB, cfgBTC]

/-- C5 (amended): on an accepted placement the locally recorded RestingOrder
stores the *unaligned* target price argument, while the exchange was sent the
tick-aligned price; the two coincide only when the target is already
tick-aligned. -/
theorem place_order_stores_target_price (cfg : Config) (gw : Gateway)
    (st : State) (side : String) (price : ℚ) (cl_ord_id : String)
    (response : NewOrderResponse)
    (h : gw.new_order cfg.symbol side cfg.order_size_btc
        (align_price cfg.symbol side price) cl_ord_id = Except.ok response)
    (hcode : response.code = some 0) :
    Maker.place_order cfg gw st side price cl_ord_id =
      { state := st.set_order side (some
          { cl_ord_id := cl_ord_id, side := side,
            price := price, qty := cfg.order_size_btc }),
        submissions := [(side, align_price cfg.symbol side price)],
        alerts := [] } := by
  simp [Maker.place_order, h, hcode]

/-- Witness for C5 (amended): the accepted buy at off-tick target
49950.02997 stores that exact target locally while submitting the aligned
price. -/
theorem place_order_stores_target_price_witness :
    Maker.place_order cfgBTC gwOk stFlat "buy" (4995002997 / 100000) "y" =
      { state := stFlat.set_order "buy" (some
          { cl_ord_id := "y", side := "buy",
            price := 4995002997 / 100000, qty := cfgBTC.order_size_btc }),
        submissions := [("buy", align_price cfgBTC.symbol "buy"
          (4995002997 / 100000))],
        alerts := [] } :=
  place_order_stores_target_price cfgBTC gwOk stFlat "buy"
    (4995002997 / 100000) "y" { code := some 0, message := none } rfl rfl

/-- C6: a tick that reaches the placement step with both slots empty submits a
buy at `last × (1 − order_distance_bps/10000)` floor-aligned and a sell at
`last × (1 + order_distance_bps/10000)` ceil-aligned. -/
theorem tick_places_at_target_prices (cfg : Config) (gw : Gateway)
    (idGen : String → String) (st : State) (p : ℚ)
    (hp : st.last_price = some p)
    (hpos : |st.position| < cfg.max_position_btc)
    (hc : st.get_orders_to_cancel (cfg.cancel_distance_bps : ℚ)
        (cfg.rebalance_distance_bps : ℚ) = [])
    (hv : ¬ st.get_volatility_bps > (cfg.volatility_threshold_bps : ℚ))
    (hb : st.buy_order = none) (hs : st.sell_order = none) :
    (Maker.tick cfg gw idGen st).submissions =
      [("buy", align_price cfg.symbol "buy"
          (p * (1 - (cfg.order_distance_bps : ℚ) / 10000))),
       ("sell", align_price cfg.symbol "sell"
          (p * (1 + (cfg.order_distance_bps : ℚ) / 10000)))] := by
  have h1 : ¬ (|st.position| ≥ cfg.max_position_btc) := not_le.mpr hpos
  unfold Maker.tick
  rw [hp]
  simp [h1, hc, hv, place_missing_orders_submissions cfg gw idGen st p hp hb hs]

/-- Witness for C6: scenario D — `order_distance_bps = 10`, last price 50000,
tick size 0.01 gives a 49950.00 buy and a 50050.00 sell. -/
theorem tick_places_at_target_prices_witness :
    (Maker.tick cfgBTC gwOk idGen0 stFlat).submissions =
      [("buy", 49950), ("sell", 50050)] := by
  have h := tick_places_at_target_prices cfgBTC gwOk idGen0 stFlat 50000 rfl
    (by norm_num [stFlat, cfgBTC])
    (by simp [State.get_orders_to_cancel, stFlat])
    (by norm_num [State.get_volatility_bps, stFlat, cfgBTC])
    rfl rfl
  rw [h]
  have hB : starts_with "BTC-USD-PERP" "BTC" = true := by decide
  have hsb : ¬ (("sell" : String) = "buy") := by decide
  norm_num [align_price, tick_size, hB, hsb, cfgBTC]

/-- C7: at the volatility step (price known, position under the limit, empty
cancel list, buy slot free) placement is skipped exactly when the volatility
strictly exceeds the threshold; at equality, placement is attempted. -/
theorem tick_volatility_gate (cfg : Config) (gw : Gateway)
    (idGen : String → String) (st : State) (p : ℚ)
    (hp : st.last_price = some p)
    (hpos : |st.position| < cfg.max_position_btc)
    (hc : st.get_orders_to_cancel (cfg.cancel_distance_bps : ℚ)
        (cfg.rebalance_distance_bps : ℚ) = [])
    (hb : st.buy_order = none) :
    ((Maker.tick cfg gw idGen st).submissions = [] ↔
        st.get_volatility_bps > (cfg.volatility_threshold_bps : ℚ)) ∧
    (st.get_volatility_bps = (cfg.volatility_threshold_bps : ℚ) →
        (Maker.tick cfg gw idGen st).submissions ≠ []) := by
  have h1 : ¬ (|st.position| ≥ cfg.max_position_btc) := not_le.mpr hpos
  unfold Maker.tick
  rw [hp]
  by_cases hv : st.get_volatility_bps > (cfg.volatility_threshold_bps : ℚ)
  · constructor
    · simp [h1, hc, hv]
    · intro heq
      rw [heq] at hv
      exact absurd hv (lt_irrefl _)
  · constructor
    · simp [h1, hc, hv, place_missing_orders_submits cfg gw idGen st p hp hb]
    · intro _
      simp [h1, hc, hv, place_missing_orders_submits cfg gw idGen st p hp hb]

/-- Witness for C7: with volatility exactly equal to the threshold (both 0)
the tick still attempts placement. -/
theorem tick_volatility_gate_witness :
    stFlat.get_volatility_bps = (cfgBTC.volatility_threshold_bps : ℚ) ∧
    (Maker.tick cfgBTC gwOk idGen0 stFlat).submissions ≠ [] := by
  have hv : stFlat.get_volatility_bps =
      (cfgBTC.volatility_threshold_bps : ℚ) := by
    norm_num [State.get_volatility_bps, stFlat, cfgBTC]
  exact ⟨hv, (tick_volatility_gate cfgBTC gwOk idGen0 stFlat 50000 rfl
    (by norm_num [stFlat, cfgBTC])
    (by simp [State.get_orders_to_cancel, stFlat]) rfl).2 hv⟩

/-- C9: with every listed field present, a dict lacking only
`rebalance_distance_bps` still loads and defaults it to 20, while the absence
of the wallet section, of any other listed field, or of both credential keys,
raises. -/
theorem from_dict_required_fields (w : WalletDict) (sym : String)
    (od cd rb ws vt : Int) (os mp : ℚ)
    (hcred : w.api_token.isSome ∨ w.private_key.isSome) :
    (∃ c, Config.from_dict
        { wallet := some w, symbol := some sym, order_distance_bps := some od,
          cancel_distance_bps := some cd, rebalance_distance_bps := none,
          order_size_btc := some os, max_position_btc := some mp,
          volatility_window_sec := some ws,
          volatility_threshold_bps := some vt } = Except.ok c ∧
        c.rebalance_distance_bps = 20) ∧
    (∃ e, Config.from_dict
        { wallet := none, symbol := some sym, order_distance_bps := some od,
          cancel_distance_bps := some cd, rebalance_distance_bps := some rb,
          order_size_btc := some os, max_position_btc := some mp,
          volatility_window_sec := some ws,
          volatility_threshold_bps := some vt } = Except.error e) ∧
    (∃ e, Config.from_dict
        { wallet := some w, symbol := none, order_distance_bps := some od,
          cancel_distance_bps := some cd, rebalance_distance_bps := some rb,
          order_size_btc := some os, max_position_btc := some mp,
          volatility_window_sec := some ws,
          volatility_threshold_bps := some vt } = Except.error e) ∧
    (∃ e, Config.from_dict
        { wallet := some w, symbol := some sym, order_distance_bps := none,
          cancel_distance_bps := some cd, rebalance_distance_bps := some rb,
          order_size_btc := some os, max_position_btc := some mp,
          volatility_window_sec := some ws,
          volatility_threshold_bps := some vt } = Except.error e) ∧
    (∃ e, Config.from_dict
        { wallet := some w, symbol := some sym, order_distance_bps := some od,
          cancel_distance_bps := none, rebalance_distance_bps := some rb,
          order_size_btc := some os, max_position_btc := some mp,
          volatility_window_sec := some ws,
          volatility_threshold_bps := some vt } = Except.error e) ∧
    (∃ e, Config.from_dict
        { wallet := some w, symbol := some sym, order_distance_bps := some od,
          cancel_distance_bps := some cd, rebalance_distance_bps := some rb,
          order_size_btc := none, max_position_btc := some mp,
          volatility_window_sec := some ws,
          volatility_threshold_bps := some vt } = Except.error e) ∧
    (∃ e, Config.from_dict
        { wallet := some w, symbol := some sym, order_distance_bps := some od,
          cancel_distance_bps := some cd, rebalance_distance_bps := some rb,
          order_size_btc := some os, max_position_btc := none,
          volatility_window_sec := some ws,
          volatility_threshold_bps := some vt } = Except.error e) ∧
    (∃ e, Config.from_dict
        { wallet := some w, symbol := some sym, order_distance_bps := some od,
          cancel_distance_bps := some cd, rebalance_distance_bps := some rb,
          order_size_btc := some os, max_position_btc := some mp,
          volatility_window_sec := none,
          volatility_threshold_bps := some vt } = Except.error e) ∧
    (∃ e, Config.from_dict
        { wallet := some w, symbol := some sym, order_distance_bps := some od,
          cancel_distance_bps := some cd, rebalance_distance_bps := some rb,
          order_size_btc := some os, max_position_btc := some mp,
          volatility_window_sec := some ws,
          volatility_threshold_bps := none } = Except.error e) ∧
    (∃ e, Config.from_dict
        { wallet := some { w with api_token := none, private_key := none },
          symbol := some sym, order_distance_bps := some od,
          cancel_distance_bps := some cd, rebalance_distance_bps := some rb,
          order_size_btc := some os, max_position_btc := some mp,
          volatility_window_sec := some ws,
          volatility_threshold_bps := some vt } = Except.error e) := by
  have h1 : Config.from_dict
      { wallet := some w, symbol := some sym, order_distance_bps := some od,
        cancel_distance_bps := some cd, rebalance_distance_bps := none,
        order_size_btc := some os, max_position_btc := some mp,
        volatility_window_sec := some ws,
        volatility_threshold_bps := some vt } = Except.ok
      { wallet :=
          { chain := w.chain.getD "bsc",
            private_key := w.private_key,
            api_token := w.api_token,
            api_secret := w.api_secret },
        symbol := sym, order_distance_bps := od, cancel_distance_bps := cd,
        rebalance_distance_bps := 20, order_size_btc := os,
        max_position_btc := mp, volatility_window_sec := ws,
        volatility_threshold_bps := vt } := by
    rcases hcred with h | h <;>
      rcases Option.isSome_iff_exists.mp h with ⟨a, ha⟩ <;>
      simp [Config.from_dict, dict_require, ha, except_ok_bind]
  refine ⟨⟨_, h1, rfl⟩, ⟨"KeyError: wallet", rfl⟩, ⟨"KeyError: symbol", ?_⟩,
    ⟨"KeyError: order_distance_bps", ?_⟩, ⟨"KeyError: cancel_distance_bps", ?_⟩,
    ⟨"KeyError: order_size_btc", ?_⟩, ⟨"KeyError: max_position_btc", ?_⟩,
    ⟨"KeyError: volatility_window_sec", ?_⟩,
    ⟨"KeyError: volatility_threshold_bps", ?_⟩,
    ⟨"Either private_key or api_token must be provided in wallet config",
      rfl⟩⟩ <;>
  rcases hcred with h | h <;>
    rcases Option.isSome_iff_exists.mp h with ⟨a, ha⟩ <;>
    simp [Config.from_dict, dict_require, ha, except_ok_bind, except_error_bind]

/-- Witness for C9: a concrete dict with only a private key loads with the
default `rebalance_distance_bps = 20`, and the same dict without `symbol`
raises. -/
theorem from_dict_required_fields_witness :
    (∃ c, Config.from_dict
        { wallet := some wFull, symbol := some "BTC-USD-PERP",
          order_distance_bps := some 10, cancel_distance_bps := some 10,
          rebalance_distance_bps := none, order_size_btc := some (1 / 1000),
          max_position_btc := some (1 / 2), volatility_window_sec := some 60,
          volatility_threshold_bps := some 30 } = Except.ok c ∧
        c.rebalance_distance_bps = 20) ∧
    (∃ e, Config.from_dict
        { wallet := some wFull, symbol := none, order_distance_bps := some 10,
          cancel_distance_bps := some 10, rebalance_distance_bps := some 20,
          order_size_btc := some (1 / 1000), max_position_btc := some (1 / 2),
          volatility_window_sec := some 60,
          volatility_threshold_bps := some 30 } = Except.error e) := by
  have h := from_dict_required_fields wFull "BTC-USD-PERP" 10 10 20 60 30
    (1 / 1000) (1 / 2) (Or.inr (by decide))
  exact ⟨h.1, h.2.2.1⟩

/-- C10: the tick size is fixed by the symbol string alone — 0.01 with two
price decimals exactly when the symbol starts with "BTC", 0.1 with one decimal
for every other symbol — and every `_place_order` submission is aligned with
it. -/
theorem tick_size_from_symbol (cfg : Config) (gw : Gateway)
    (st : State) (side : String) (price : ℚ) (cl_ord_id : String) :
    (Maker.place_order cfg gw st side price cl_ord_id).submissions =
      [(side, align_price cfg.symbol side price)] ∧
    (starts_with cfg.symbol "BTC" = true →
      tick_size cfg.symbol = 1 / 100 ∧ price_decimals cfg.symbol = 2) ∧
    (starts_with cfg.symbol "BTC" = false →
      tick_size cfg.symbol = 1 / 10 ∧ price_decimals cfg.symbol = 1) := by
  refine ⟨place_order_submissions cfg gw st side price cl_ord_id, ?_, ?_⟩ <;>
    intro h <;> simp [tick_size, price_decimals, h]

/-- Witness for C10: a BTC symbol gets tick 0.01 and 2 decimals; an ETH symbol
gets tick 0.1 and 1 decimal. -/
theorem tick_size_from_symbol_witness :
    (tick_size cfgBTC.symbol = 1 / 100 ∧ price_decimals cfgBTC.symbol = 2) ∧
    (tick_size cfgETH.symbol = 1 / 10 ∧ price_decimals cfgETH.symbol = 1) :=
  ⟨(tick_size_from_symbol cfgBTC gwOk stFlat "buy" 50000 "x").2.1 (by decide),
   (tick_size_from_symbol cfgETH gwOk stFlat "buy" 50000 "x").2.2 (by decide)⟩

end StandXMM
